import Mathlib

/-!
Verification of the Equibop desktop-shell glue code: a shallow embedding of
the tray-icon voice-state resolution and second-instance keybind forwarding
(renderer patch and main process), and of the main-window construction,
spell-check, reset-flow, close-policy, listener-bookkeeping and accent-color
logic, together with theorems settling the specified properties.
-/

set_option maxHeartbeats 1000000
set_option maxRecDepth 10000

/-- The tray icon states used by the renderer patch and main-process tray. -/
inductive TrayIcon
  | icon
  | idle
  | muted
  | deafened
  | speaking
  deriving DecidableEq

/-- The voice flags consulted by the renderer keybinds patch: the module-level
`isInCall` variable and the `voiceActions.isSelfDeaf()` / `isSelfMute()` queries. -/
structure VoiceState where
  isInCall : Bool
  selfDeaf : Bool
  selfMute : Bool
  deriving DecidableEq

/-- Embedding of `setCurrentTrayIcon` from `src/renderer/patches/keybinds.ts`:
in a call, deafened is checked first, then muted, else idle; out of a call
the plain icon is used. -/
def setCurrentTrayIcon (s : VoiceState) : TrayIcon :=
  if s.isInCall then
    if s.selfDeaf then TrayIcon.deafened
    else if s.selfMute then TrayIcon.muted
    else TrayIcon.idle
  else TrayIcon.icon

/-- Payload of a `SPEAKING` flux event as read by the subscription in
`src/renderer/patches/keybinds.ts` (`userId`, `context`, `speakingFlags`). -/
structure SpeakingEvent where
  userId : String
  context : String
  speakingFlags : Nat
  deriving DecidableEq

/-- Embedding of the `FluxDispatcher.subscribe("SPEAKING", ...)` handler:
for the current user in the default context, nonzero speaking flags set the
`speaking` icon directly; zero flags re-run `setCurrentTrayIcon`. The result
is the icon set by the handler, or `none` when the event is ignored. -/
def handleSpeakingEvent (currentUserId : String) (s : VoiceState) (p : SpeakingEvent) : Option TrayIcon :=
  if p.userId = currentUserId ∧ p.context = "default" then
    if p.speakingFlags ≠ 0 then some TrayIcon.speaking
    else some (setCurrentTrayIcon s)
  else none

/-- Embedding of the `AUDIO_TOGGLE_SELF_DEAF` subscription: recompute the tray
icon through `setCurrentTrayIcon` only while in a call. -/
def handleAudioToggleSelfDeaf (s : VoiceState) : Option TrayIcon :=
  if s.isInCall then some (setCurrentTrayIcon s) else none

/-- Embedding of the `AUDIO_TOGGLE_SELF_MUTE` subscription: recompute the tray
icon through `setCurrentTrayIcon` only while in a call. -/
def handleAudioToggleSelfMute (s : VoiceState) : Option TrayIcon :=
  if s.isInCall then some (setCurrentTrayIcon s) else none

/-- Embedding of the `RTC_CONNECTION_STATE` subscription: connecting in the
default context sets `isInCall` and recomputes the icon; disconnecting sets the
plain icon and clears `isInCall`. Returns the new state and the icon set. -/
def handleRtcConnectionState (s : VoiceState) (state context : String) : VoiceState × Option TrayIcon :=
  if state = "RTC_CONNECTED" ∧ context = "default" then
    let s2 := { s with isInCall := true }
    (s2, some (setCurrentTrayIcon s2))
  else if state = "RTC_DISCONNECTED" ∧ context = "default" then
    ({ s with isInCall := false }, some TrayIcon.icon)
  else (s, none)

/-- Embedding of `registerKeybind` from `src/renderer/patches/keybinds.ts`:
`keybindCallbacks[id] = callback` on the renderer-side callback registry. -/
def registerKeybind {α : Type} (id : Nat) (callback : α) (reg : Nat → Option α) : Nat → Option α :=
  fun k => if k = id then some callback else reg k

/-- Embedding of `unregisterKeybind` from `src/renderer/patches/keybinds.ts`:
`delete keybindCallbacks[id]`. -/
def unregisterKeybind {α : Type} (id : Nat) (reg : Nat → Option α) : Nat → Option α :=
  fun k => if k = id then none else reg k

/-- The action taken by the `second-instance` handler in `src/main/index.ts`:
either an invocation `Vesktop.keybindCallbacks[id](down)` in the running
window, quitting (dev mode), or focusing the existing window. -/
inductive SecondInstanceAction
  | invokeKeybind (id : Option String) (down : Bool)
  | quitApp
  | focusExisting
  | noop
  deriving DecidableEq

/-- Embedding of the `app.on("second-instance", ...)` handler in
`src/main/index.ts`: find the first `--keybind` in the command line; with a
`keyup`/`keydown` token two places later invoke the callback with
`token === "keydown"`, otherwise invoke it with `false`; without `--keybind`
quit in dev mode or focus the existing window. -/
def handleSecondInstance (cmdLine : List String) (isDev : Bool) (hasMainWin : Bool) : SecondInstanceAction :=
  match List.findIdx? (fun s => s == "--keybind") cmdLine with
  | some keybindIndex =>
    if cmdLine.get? (keybindIndex + 2) = some "keyup" ∨ cmdLine.get? (keybindIndex + 2) = some "keydown" then
      SecondInstanceAction.invokeKeybind (cmdLine.get? (keybindIndex + 1))
        (decide (cmdLine.get? (keybindIndex + 2) = some "keydown"))
    else
      SecondInstanceAction.invokeKeybind (cmdLine.get? (keybindIndex + 1)) false
  | none =>
    if isDev then SecondInstanceAction.quitApp
    else if hasMainWin then SecondInstanceAction.focusExisting
    else SecondInstanceAction.noop

/-- C1: when in a call and both self-muted and self-deafened,
`setCurrentTrayIcon` resolves to `deafened` and never to `muted`; in a call and
self-muted but not deafened it resolves to `muted`; out of a call it resolves
to `icon`. -/
theorem tray_icon_mute_deaf_precedence (s : VoiceState) :
    (s.isInCall = true → s.selfMute = true → s.selfDeaf = true →
      setCurrentTrayIcon s = TrayIcon.deafened ∧ setCurrentTrayIcon s ≠ TrayIcon.muted) ∧
    (s.isInCall = true → s.selfMute = true → s.selfDeaf = false →
      setCurrentTrayIcon s = TrayIcon.muted) ∧
    (s.isInCall = false → setCurrentTrayIcon s = TrayIcon.icon) := by
  obtain ⟨c, d, m⟩ := s
  cases c <;> cases d <;> cases m <;> simp [setCurrentTrayIcon]

/-- Witness for C1 at concrete voice states. -/
theorem tray_icon_mute_deaf_precedence_witness :
    (setCurrentTrayIcon ⟨true, true, true⟩ = TrayIcon.deafened ∧
      setCurrentTrayIcon ⟨true, true, true⟩ ≠ TrayIcon.muted) ∧
    setCurrentTrayIcon ⟨true, false, true⟩ = TrayIcon.muted ∧
    setCurrentTrayIcon ⟨false, false, false⟩ = TrayIcon.icon :=
  ⟨(tray_icon_mute_deaf_precedence ⟨true, true, true⟩).1 rfl rfl rfl,
   (tray_icon_mute_deaf_precedence ⟨true, false, true⟩).2.1 rfl rfl rfl,
   (tray_icon_mute_deaf_precedence ⟨false, false, false⟩).2.2 rfl⟩

/-- C6: a second-instance command line whose first `--keybind` is followed by
an id token and then `keydown` makes the running instance invoke the keybind
callback registry entry for that id with `true`; `keyup` invokes it with
`false`; and `registerKeybind` stores the callback under its id. -/
theorem second_instance_keybind_forwarding {α : Type}
    (cmdLine : List String) (isDev hasMainWin : Bool)
    (i : Nat) (idToken : String)
    (reg : Nat → Option α) (k : Nat) (cb : α)
    (hIdx : List.findIdx? (fun s => s == "--keybind") cmdLine = some i)
    (hId : cmdLine.get? (i + 1) = some idToken) :
    (cmdLine.get? (i + 2) = some "keydown" →
      handleSecondInstance cmdLine isDev hasMainWin =
        SecondInstanceAction.invokeKeybind (some idToken) true) ∧
    (cmdLine.get? (i + 2) = some "keyup" →
      handleSecondInstance cmdLine isDev hasMainWin =
        SecondInstanceAction.invokeKeybind (some idToken) false) ∧
    registerKeybind k cb reg k = some cb := by
  refine ⟨?_, ?_, ?_⟩
  · intro hdown
    simp only [List.get?_eq_getElem?] at hdown hId
    simp [handleSecondInstance, hIdx, hdown, hId]
  · intro hup
    simp only [List.get?_eq_getElem?] at hup hId
    simp [handleSecondInstance, hIdx, hup, hId]
  · simp [registerKeybind]

/-- Witness for C6 on the command line `--keybind 3 keydown`. -/
theorem second_instance_keybind_forwarding_witness :
    (List.get? ["--keybind", "3", "keydown"] 2 = some "keydown" →
      handleSecondInstance ["--keybind", "3", "keydown"] false true =
        SecondInstanceAction.invokeKeybind (some "3") true) ∧
    (List.get? ["--keybind", "3", "keydown"] 2 = some "keyup" →
      handleSecondInstance ["--keybind", "3", "keydown"] false true =
        SecondInstanceAction.invokeKeybind (some "3") false) ∧
    registerKeybind 3 (7 : Nat) (fun _ => none) 3 = some 7 :=
  second_instance_keybind_forwarding ["--keybind", "3", "keydown"] false true 0 "3"
    (fun _ => none) 3 7 (by decide) (by decide)

/-- C10: a second-instance command line whose first `--keybind` is followed by
an id token and then a token that is neither `keydown` nor `keyup` (including
a missing token) still invokes the callback registry entry, with `false`. -/
theorem malformed_keybind_token_treated_as_keyup
    (cmdLine : List String) (isDev hasMainWin : Bool) (i : Nat) (idToken : String)
    (hIdx : List.findIdx? (fun s => s == "--keybind") cmdLine = some i)
    (hId : cmdLine.get? (i + 1) = some idToken)
    (hNotDown : cmdLine.get? (i + 2) ≠ some "keydown")
    (hNotUp : cmdLine.get? (i + 2) ≠ some "keyup") :
    handleSecondInstance cmdLine isDev hasMainWin =
      SecondInstanceAction.invokeKeybind (some idToken) false := by
  simp only [List.get?_eq_getElem?] at hId hNotDown hNotUp
  simp [handleSecondInstance, hIdx, hId, hNotDown, hNotUp]

/-- Witness for C10 on the command line `--keybind 7` with no third token. -/
theorem malformed_keybind_token_treated_as_keyup_witness :
    handleSecondInstance ["--keybind", "7"] false true =
      SecondInstanceAction.invokeKeybind (some "7") false :=
  malformed_keybind_token_treated_as_keyup ["--keybind", "7"] false true 0 "7"
    (by decide) (by decide) (by decide) (by decide)

/-- C7 counterexample: while in a call, self-muted and not deafened, a
`SPEAKING` event for the current user with nonzero flags sets the tray icon to
`speaking`, not `muted`: the speaking signal bypasses the precedence chain. -/
theorem speaking_event_overrides_muted :
    handleSpeakingEvent "user1" ⟨true, false, true⟩ ⟨"user1", "default", 1⟩ =
      some TrayIcon.speaking ∧
    TrayIcon.speaking ≠ TrayIcon.muted := by
  exact ⟨rfl, by decide⟩

/-- C7 amended: while in a call, self-muted and not deafened, every event that
recomputes through `setCurrentTrayIcon` (mute toggle, deafen toggle, a
speaking event with zero flags) resolves the icon to `muted`; but a speaking
event for the current user with nonzero flags sets `speaking` directly,
bypassing the precedence chain. -/
theorem muted_resolution_except_speaking_start (s : VoiceState) (uid : String) (flags : Nat)
    (hc : s.isInCall = true) (hm : s.selfMute = true) (hd : s.selfDeaf = false) :
    setCurrentTrayIcon s = TrayIcon.muted ∧
    handleAudioToggleSelfMute s = some TrayIcon.muted ∧
    handleAudioToggleSelfDeaf s = some TrayIcon.muted ∧
    handleSpeakingEvent uid s ⟨uid, "default", 0⟩ = some TrayIcon.muted ∧
    (flags ≠ 0 →
      handleSpeakingEvent uid s ⟨uid, "default", flags⟩ = some TrayIcon.speaking) := by
  have hset : setCurrentTrayIcon s = TrayIcon.muted := by
    simp [setCurrentTrayIcon, hc, hm, hd]
  refine ⟨hset, ?_, ?_, ?_, ?_⟩
  · simp [handleAudioToggleSelfMute, hc, hset]
  · simp [handleAudioToggleSelfDeaf, hc, hset]
  · simp [handleSpeakingEvent, hset]
  · intro hf
    simp [handleSpeakingEvent, hf]

/-- Witness for the amended C7 at a concrete muted in-call state. -/
theorem muted_resolution_except_speaking_start_witness :
    setCurrentTrayIcon ⟨true, false, true⟩ = TrayIcon.muted ∧
    handleAudioToggleSelfMute ⟨true, false, true⟩ = some TrayIcon.muted ∧
    handleAudioToggleSelfDeaf ⟨true, false, true⟩ = some TrayIcon.muted ∧
    handleSpeakingEvent "u" ⟨true, false, true⟩ ⟨"u", "default", 0⟩ = some TrayIcon.muted ∧
    ((1 : Nat) ≠ 0 →
      handleSpeakingEvent "u" ⟨true, false, true⟩ ⟨"u", "default", 1⟩ = some TrayIcon.speaking) :=
  muted_resolution_except_speaking_start ⟨true, false, true⟩ "u" 1 rfl rfl rfl

/-- A window/display rectangle as produced by `win.getBounds()` and stored in
`State.store.windowBounds`. -/
structure Rectangle where
  x : Int
  y : Int
  width : Nat
  height : Nat
  deriving DecidableEq

/-- The subset of `BrowserWindowConstructorOptions` that
`getWindowBoundsOptions` in `src/main/mainWindow.ts` populates; `none` means
the field is left unset. -/
structure WindowOptions where
  width : Option Nat := none
  height : Option Nat := none
  x : Option Int := none
  y : Option Int := none
  minWidth : Option Nat := none
  minHeight : Option Nat := none
  deriving DecidableEq

/-- Embedding of `getWindowBoundsOptions` from `src/main/mainWindow.ts`.
Deck game mode returns empty options; otherwise width/height come from the
stored bounds with defaults, and x/y are set only when both are stored and the
stored display id matches an attached display. The constants `DEFAULT_WIDTH`,
`DEFAULT_HEIGHT`, `MIN_WIDTH`, `MIN_HEIGHT` live in `src/main/constants.ts`
(outside the analysed sources) and are passed as parameters. -/
def getWindowBoundsOptions (isDeckGameMode : Bool) (windowBounds : Option Rectangle)
    (displayid : Option Nat) (displayIds : List Nat) (disableMinSize : Bool)
    (defaultWidth defaultHeight minWidthConst minHeightConst : Nat) : WindowOptions :=
  if isDeckGameMode then {} else
  let x := windowBounds.map Rectangle.x
  let y := windowBounds.map Rectangle.y
  let w := windowBounds.map Rectangle.width
  let h := windowBounds.map Rectangle.height
  let storedDisplay := displayIds.find? (fun display => decide (some display = displayid))
  let options : WindowOptions :=
    { width := some (w.getD defaultWidth), height := some (h.getD defaultHeight) }
  let options :=
    if x.isSome && y.isSome && storedDisplay.isSome then
      { options with x := x, y := y }
    else options
  if !disableMinSize then
    { options with minWidth := some minWidthConst, minHeight := some minHeightConst }
  else options

/-- Embedding of `initSpellCheckLanguages` from `src/main/mainWindow.ts`:
`applicable` is the requested list filtered to engine-supported languages and
sliced to 5; the spell-checker languages are set only when it is nonempty.
The result is the list applied, or `none` when no call is made. -/
def initSpellCheckLanguages (languages : List String) (available : List String) :
    Option (List String) :=
  let applicable := (languages.filter (fun l => available.contains l)).take 5
  if applicable.length ≠ 0 then some applicable else none

/-- The applied spell-check list as the spec describes it: the requested
languages that are members of the supported set, in the requested order,
truncated to at most 5 entries. -/
def specAppliedLanguages (languages : List String) (available : List String) : List String :=
  (languages.filter (fun l => decide (l ∈ available))).take 5

/-- The message-box choices used by `clearData`; `src/main/constants.ts`
(outside the analysed sources) defines `MessageBoxChoice` with members
`Default` and `Cancel`, and the dialog maps dismissal to its `cancelId`,
which is `Cancel`. -/
inductive MessageBoxChoice
  | Default
  | Cancel
  deriving DecidableEq

/-- The observable side effects of one run of `clearData`. -/
structure ClearDataEffects where
  windowClosed : Bool
  storageCleared : Bool
  cacheCleared : Bool
  codeCachesCleared : Bool
  dataDirRemoved : Bool
  relaunched : Bool
  quitApp : Bool
  deriving DecidableEq

/-- Embedding of `clearData` from `src/main/mainWindow.ts`: when the dialog
response is `Cancel` the function returns before any effect; otherwise it
closes the window, clears storage, cache and code caches, removes the data
directory, relaunches and quits. -/
def clearData (response : MessageBoxChoice) : ClearDataEffects :=
  if response = MessageBoxChoice.Cancel then
    { windowClosed := false, storageCleared := false, cacheCleared := false,
      codeCachesCleared := false, dataDirRemoved := false, relaunched := false,
      quitApp := false }
  else
    { windowClosed := true, storageCleared := true, cacheCleared := true,
      codeCachesCleared := true, dataDirRemoved := true, relaunched := true,
      quitApp := true }

/-- The platform values distinguished by the close handler. -/
inductive OsPlatform
  | darwin
  | win32
  | linux
  deriving DecidableEq

/-- The outcome of the `win.on("close", ...)` handler: let destruction
proceed, or intercept the close and hide the window (non-darwin) or the app
(darwin). -/
inductive CloseAction
  | destroyWindow
  | hideWindow
  | hideApp
  deriving DecidableEq

/-- Embedding of the `win.on("close", ...)` handler in
`src/main/mainWindow.ts`: `useTray` holds when not in deck game mode and
neither `minimizeToTray` nor `tray` is set to `false` (unset counts as
enabled); the close proceeds to destruction when `isQuitting` is set or when
the platform is not darwin and `useTray` fails, and is otherwise intercepted
with `preventDefault` and a hide. -/
def handleClose (isQuitting : Bool) (platform : OsPlatform) (isDeckGameMode : Bool)
    (minimizeToTray trayEnabled : Option Bool) : CloseAction :=
  let useTray := !isDeckGameMode && minimizeToTray != some false && trayEnabled != some false
  if isQuitting || (platform != OsPlatform.darwin && !useTray) then
    CloseAction.destroyWindow
  else if platform = OsPlatform.darwin then CloseAction.hideApp
  else CloseAction.hideWindow

/-- C2 counterexample: with a stale display id (99 not among the attached
display ids), the stored width 1000 is still used for the window width; the
options do not fall back to the default width 1280. -/
theorem window_bounds_stale_display_uses_stored_size :
    (getWindowBoundsOptions false (some ⟨10, 20, 1000, 700⟩) (some 99) [1] false
        1280 720 940 500).width = some 1000 ∧
    (getWindowBoundsOptions false (some ⟨10, 20, 1000, 700⟩) (some 99) [1] false
        1280 720 940 500).width ≠ some 1280 := by
  exact ⟨rfl, by decide⟩

/-- C2 amended: outside deck game mode, when the stored display id matches no
attached display, `getWindowBoundsOptions` sets no explicit x/y position and
does not crash, but it keeps the stored width and height, falling back to the
default width/height only when no bounds are stored. -/
theorem window_bounds_stale_display_fallback
    (windowBounds : Option Rectangle) (displayid : Option Nat) (displayIds : List Nat)
    (disableMinSize : Bool) (dw dh mw mh : Nat)
    (hStale : ∀ d ∈ displayIds, some d ≠ displayid) :
    (getWindowBoundsOptions false windowBounds displayid displayIds disableMinSize
        dw dh mw mh).x = none ∧
    (getWindowBoundsOptions false windowBounds displayid displayIds disableMinSize
        dw dh mw mh).y = none ∧
    (getWindowBoundsOptions false windowBounds displayid displayIds disableMinSize
        dw dh mw mh).width = some ((windowBounds.map Rectangle.width).getD dw) ∧
    (getWindowBoundsOptions false windowBounds displayid displayIds disableMinSize
        dw dh mw mh).height = some ((windowBounds.map Rectangle.height).getD dh) := by
  have hfind : displayIds.find? (fun display => decide (some display = displayid)) = none := by
    rw [List.find?_eq_none]
    intro d hd
    simpa using hStale d hd
  cases disableMinSize <;>
    simp [getWindowBoundsOptions, hfind]

/-- Witness for the amended C2 with a stale display id. -/
theorem window_bounds_stale_display_fallback_witness :
    (getWindowBoundsOptions false (some ⟨10, 20, 1000, 700⟩) (some 99) [1] true
        1280 720 940 500).x = none ∧
    (getWindowBoundsOptions false (some ⟨10, 20, 1000, 700⟩) (some 99) [1] true
        1280 720 940 500).y = none ∧
    (getWindowBoundsOptions false (some ⟨10, 20, 1000, 700⟩) (some 99) [1] true
        1280 720 940 500).width =
      some (((some (Rectangle.mk 10 20 1000 700)).map Rectangle.width).getD 1280) ∧
    (getWindowBoundsOptions false (some ⟨10, 20, 1000, 700⟩) (some 99) [1] true
        1280 720 940 500).height =
      some (((some (Rectangle.mk 10 20 1000 700)).map Rectangle.height).getD 720) :=
  window_bounds_stale_display_fallback (some ⟨10, 20, 1000, 700⟩) (some 99) [1] true
    1280 720 940 500 (by decide)

/-- C4: the list applied by `initSpellCheckLanguages` (empty when no call is
made) is exactly the requested languages that are members of the supported
set, in the requested order, truncated to at most 5 entries; in particular the
request `xx-XX, en-US, fr-FR` against the supported set `en-US, fr-FR, de-DE`
applies exactly `en-US, fr-FR`. -/
theorem spellcheck_languages_intersection (languages available : List String) :
    (initSpellCheckLanguages languages available).getD [] =
      specAppliedLanguages languages available ∧
    (specAppliedLanguages languages available).length ≤ 5 ∧
    initSpellCheckLanguages ["xx-XX", "en-US", "fr-FR"] ["en-US", "fr-FR", "de-DE"] =
      some ["en-US", "fr-FR"] := by
  have hfe : languages.filter (fun l => available.contains l) =
      languages.filter (fun l => decide (l ∈ available)) := by
    apply List.filter_congr
    intro x _
    simp
  refine ⟨?_, ?_, by decide⟩
  · unfold initSpellCheckLanguages specAppliedLanguages
    rw [hfe]
    by_cases h : ((languages.filter (fun l => decide (l ∈ available))).take 5).length ≠ 0
    · rw [if_pos h]
      rfl
    · rw [if_neg h]
      push_neg at h
      simp [List.length_eq_zero.mp h]
  · unfold specAppliedLanguages
    exact le_trans (List.length_take_le 5 _) (le_refl 5)

/-- C5: a cancel response (the choice dialog dismissal also produces) makes
`clearData` perform no effect at all: nothing is cleared or removed, the
window stays open, and no relaunch or quit occurs; an affirmative response
performs the full clear-and-relaunch sequence. -/
theorem clear_data_cancel_no_effects :
    clearData MessageBoxChoice.Cancel =
      { windowClosed := false, storageCleared := false, cacheCleared := false,
        codeCachesCleared := false, dataDirRemoved := false, relaunched := false,
        quitApp := false } ∧
    clearData MessageBoxChoice.Default =
      { windowClosed := true, storageCleared := true, cacheCleared := true,
        codeCachesCleared := true, dataDirRemoved := true, relaunched := true,
        quitApp := true } :=
  ⟨rfl, rfl⟩

/-- C8: when the really-quitting flag is set, the close handler lets
destruction proceed; when it is unset, tray and tray-minimize are not disabled,
the platform is not darwin and deck game mode is off, the close is intercepted
and the window is hidden, never destroyed. -/
theorem close_interception_policy (isQuitting : Bool) (platform : OsPlatform)
    (isDeckGameMode : Bool) (minimizeToTray trayEnabled : Option Bool) :
    (isQuitting = true →
      handleClose isQuitting platform isDeckGameMode minimizeToTray trayEnabled =
        CloseAction.destroyWindow) ∧
    (isQuitting = false → minimizeToTray ≠ some false → trayEnabled ≠ some false →
      platform ≠ OsPlatform.darwin → isDeckGameMode = false →
      handleClose isQuitting platform isDeckGameMode minimizeToTray trayEnabled =
          CloseAction.hideWindow ∧
        handleClose isQuitting platform isDeckGameMode minimizeToTray trayEnabled ≠
          CloseAction.destroyWindow) := by
  constructor
  · intro hq
    simp [handleClose, hq]
  · intro hq hmin htray hplat hdeck
    subst hq hdeck
    have h1 : minimizeToTray != some false := bne_iff_ne.mpr hmin
    have h2 : trayEnabled != some false := bne_iff_ne.mpr htray
    have h3 : platform != OsPlatform.darwin := bne_iff_ne.mpr hplat
    simp [handleClose, h1, h2, h3, hplat]

/-- Witness for C8: quitting destroys; a non-darwin close with tray policy
active hides the window. -/
theorem close_interception_policy_witness :
    (handleClose true OsPlatform.win32 false none none = CloseAction.destroyWindow) ∧
    (handleClose false OsPlatform.win32 false none (some true) = CloseAction.hideWindow ∧
      handleClose false OsPlatform.win32 false none (some true) ≠ CloseAction.destroyWindow) :=
  ⟨(close_interception_policy true OsPlatform.win32 false none none).1 rfl,
   (close_interception_policy false OsPlatform.win32 false none (some true)).2 rfl
     (by decide) (by decide) (by decide) rfl⟩

/-- Callbacks are identified by a numeric identity, mirroring JavaScript
function-object identity. -/
abbrev ListenerId := Nat

/-- Modelled from the spec: the SettingsStore change-listener registry
(`shared/utils/SettingsStore` is not among the analysed sources). Per the
spec contract, `addChangeListener(key, callback)` registers the callback for
that key and `removeChangeListener(key, callback)` detaches that one
(key, callback) registration; registrations are kept as a list of pairs. -/
def addChangeListener (store : List (String × ListenerId)) (path : String)
    (cb : ListenerId) : List (String × ListenerId) :=
  store ++ [(path, cb)]

/-- Modelled from the spec: removal of one (key, callback) registration from
the SettingsStore change-listener registry. -/
def removeChangeListener (store : List (String × ListenerId)) (path : String)
    (cb : ListenerId) : List (String × ListenerId) :=
  store.filter (fun e => !(e.1 == path && e.2 == cb))

/-- JavaScript `Map.set` semantics: replace the value of an existing key in
place, else append the new entry. -/
def jsMapSet (m : List (ListenerId × String)) (key : ListenerId) (value : String) :
    List (ListenerId × String) :=
  if m.any (fun e => e.1 == key) then
    m.map (fun e => if e.1 == key then (key, value) else e)
  else m ++ [(key, value)]

/-- The state managed by `makeSettingsListenerHelpers` in
`src/main/mainWindow.ts`: the underlying store registrations together with the
local `listeners` bookkeeping map from callback identity to key path. -/
structure ListenerHelpersState where
  storeListeners : List (String × ListenerId)
  bookkeeping : List (ListenerId × String)
  deriving DecidableEq

/-- Embedding of the `addListener` closure of `makeSettingsListenerHelpers`:
`listeners.set(cb, path)` followed by `o.addChangeListener(path, cb)`. -/
def addListener (st : ListenerHelpersState) (path : String) (cb : ListenerId) :
    ListenerHelpersState :=
  { storeListeners := addChangeListener st.storeListeners path cb,
    bookkeeping := jsMapSet st.bookkeeping cb path }

/-- Embedding of the `removeAllListeners` closure of
`makeSettingsListenerHelpers`: for each bookkeeping entry remove that
(path, callback) registration from the store, then clear the map. -/
def removeAllListeners (st : ListenerHelpersState) : ListenerHelpersState :=
  { storeListeners :=
      st.bookkeeping.foldl (fun s e => removeChangeListener s e.2 e.1) st.storeListeners,
    bookkeeping := [] }

/-- C9: the bookkeeping of `makeSettingsListenerHelpers` is keyed by callback
identity: registering one callback under two different keys leaves only the
most recent key in the map, so `removeAllListeners` detaches the callback from
only the last key and the earlier registration stays live in the store. -/
theorem listener_bookkeeping_last_key_wins (k1 k2 : String) (cb : ListenerId)
    (h : k1 ≠ k2) :
    (addListener (addListener ⟨[], []⟩ k1 cb) k2 cb).bookkeeping = [(cb, k2)] ∧
    (addListener (addListener ⟨[], []⟩ k1 cb) k2 cb).storeListeners =
      [(k1, cb), (k2, cb)] ∧
    (removeAllListeners (addListener (addListener ⟨[], []⟩ k1 cb) k2 cb)).storeListeners =
      [(k1, cb)] := by
  have hne : (k1 == k2) = false := beq_eq_false_iff_ne.mpr h
  refine ⟨?_, ?_, ?_⟩
  · simp [addListener, jsMapSet, addChangeListener]
  · simp [addListener, jsMapSet, addChangeListener]
  · simp [removeAllListeners, addListener, jsMapSet, addChangeListener,
      removeChangeListener, hne]

/-- Witness for C9 with keys `tray` and `enableMenu`. -/
theorem listener_bookkeeping_last_key_wins_witness :
    (addListener (addListener ⟨[], []⟩ "tray" 0) "enableMenu" 0).bookkeeping =
      [(0, "enableMenu")] ∧
    (addListener (addListener ⟨[], []⟩ "tray" 0) "enableMenu" 0).storeListeners =
      [("tray", 0), ("enableMenu", 0)] ∧
    (removeAllListeners
        (addListener (addListener ⟨[], []⟩ "tray" 0) "enableMenu" 0)).storeListeners =
      [("tray", 0)] :=
  listener_bookkeeping_last_key_wins "tray" "enableMenu" 0 (by decide)

/-- JavaScript `n.toString(16)` for a natural number: lowercase base-16
digits. -/
def jsToString16 (n : Nat) : String := String.mk (Nat.toDigits 16 n)

/-- JavaScript `s.padStart(2, "0")`: prepend zeros up to length 2. -/
def jsPadStart2 (s : String) : String :=
  String.mk (List.replicate (2 - s.length) '0') ++ s

/-- JavaScript `Math.round` on the nonnegative rationals that arise here:
floor of the value plus one half. -/
def jsRound (q : ℚ) : ℤ := ⌊q + 1/2⌋

/-- The `toHex` helper of `getAccentColor` in `src/main/mainWindow.ts`:
`value.toString(16).padStart(2, "0")`, with the JavaScript rendering of a
negative value as a minus sign before its absolute digits. -/
def toHex (value : ℤ) : String :=
  if value < 0 then jsPadStart2 ("-" ++ jsToString16 value.natAbs)
  else jsPadStart2 (jsToString16 value.toNat)

/-- The outcome of the desktop-bus accent-color query on Linux: the service or
interface lookup fails, the `Read` call fails, or it succeeds with an RGB
triple normalized to 0..1. -/
inductive DbusAccentQuery
  | serviceError
  | readError
  | ok (r g b : ℚ)

/-- Embedding of the Linux path of `getAccentColor` in
`src/main/mainWindow.ts`: both failure callbacks resolve the empty string; on
success each component is scaled by 255, rounded, hex-formatted and prefixed
with `#`. -/
def getAccentColorLinux (q : DbusAccentQuery) : String :=
  match q with
  | DbusAccentQuery.serviceError => ""
  | DbusAccentQuery.readError => ""
  | DbusAccentQuery.ok r g b =>
    let r255 := jsRound (r * 255)
    let g255 := jsRound (g * 255)
    let b255 := jsRound (b * 255)
    "#" ++ toHex r255 ++ toHex g255 ++ toHex b255

/-- Embedding of the non-Linux path of `getAccentColor`: the template
interpolation of `systemPreferences.getAccentColor?.() || ""` after a `#`;
a missing API (`none`) or an empty native result contributes nothing beyond
the `#` prefix. -/
def getAccentColorNonLinux (nativeResult : Option String) : String :=
  "#" ++ (match nativeResult with
          | none => ""
          | some s => if s = "" then "" else s)

/-- A lowercase hexadecimal digit. -/
def isHexDigitChar (c : Char) : Bool := "0123456789abcdef".data.contains c

/-- A `#`-prefixed 6-hex-digit color string. -/
def isHexColorString (s : String) : Bool :=
  s.data.head? == some '#' && s.data.length == 7 && (s.data.drop 1).all isHexDigitChar

theorem toHex_two_hex : ∀ n : Nat, n < 256 →
    (toHex (n : ℤ)).data.length = 2 ∧
    (toHex (n : ℤ)).data.all isHexDigitChar = true := by decide

theorem isHexColorString_parts (a b c : String)
    (ha1 : a.data.length = 2) (ha2 : a.data.all isHexDigitChar = true)
    (hb1 : b.data.length = 2) (hb2 : b.data.all isHexDigitChar = true)
    (hc1 : c.data.length = 2) (hc2 : c.data.all isHexDigitChar = true) :
    isHexColorString ("#" ++ a ++ b ++ c) = true := by
  have hsharp : "#".data = ['#'] := rfl
  have hdata : ("#" ++ a ++ b ++ c).data = '#' :: (a.data ++ b.data ++ c.data) := by
    rw [String.data_append, String.data_append, String.data_append, hsharp]
    simp
  unfold isHexColorString
  rw [hdata]
  simp [List.all_append, ha2, hb2, hc2, ha1, hb1, hc1]

theorem toHex_unit_interval (q : ℚ) (h0 : 0 ≤ q) (h1 : q ≤ 1) :
    (toHex (jsRound (q * 255))).data.length = 2 ∧
    (toHex (jsRound (q * 255))).data.all isHexDigitChar = true := by
  have hz0 : 0 ≤ jsRound (q * 255) := by
    unfold jsRound
    apply Int.le_floor.mpr
    push_cast
    linarith
  have hz1 : jsRound (q * 255) ≤ 255 := by
    have hlt : jsRound (q * 255) < 256 := by
      unfold jsRound
      apply Int.floor_lt.mpr
      push_cast
      linarith
    omega
  have heq : jsRound (q * 255) = ((jsRound (q * 255)).toNat : ℤ) :=
    (Int.toNat_of_nonneg hz0).symm
  rw [heq]
  exact toHex_two_hex _ (by omega)

/-- C3 counterexample: on a non-Linux platform with the native accent-color
API missing, `getAccentColor` resolves to the single-character string `#`,
not to the empty string. -/
theorem accent_color_missing_native_api_not_empty :
    getAccentColorNonLinux none = "#" ∧ getAccentColorNonLinux none ≠ "" := by
  exact ⟨rfl, by decide⟩

/-- C3 amended: on Linux every failure of the desktop-bus accent query
resolves to the empty string, and a success with 0..1-normalized components
resolves to a `#`-prefixed 6-hex-digit color built by rounding each component
to 0..255; on other platforms a missing native API or an empty native result
resolves to the single-character string `#` rather than the empty string; no
path throws or rejects (every query outcome is mapped to a resolved
string). -/
theorem accent_color_failure_and_linux_format (r g b : ℚ) (nativeResult : Option String)
    (hr0 : 0 ≤ r) (hr1 : r ≤ 1) (hg0 : 0 ≤ g) (hg1 : g ≤ 1)
    (hb0 : 0 ≤ b) (hb1 : b ≤ 1) :
    getAccentColorLinux DbusAccentQuery.serviceError = "" ∧
    getAccentColorLinux DbusAccentQuery.readError = "" ∧
    isHexColorString (getAccentColorLinux (DbusAccentQuery.ok r g b)) = true ∧
    (nativeResult = none ∨ nativeResult = some "" →
      getAccentColorNonLinux nativeResult = "#") := by
  refine ⟨rfl, rfl, ?_, ?_⟩
  · have har := toHex_unit_interval r hr0 hr1
    have hag := toHex_unit_interval g hg0 hg1
    have hab := toHex_unit_interval b hb0 hb1
    show isHexColorString
      ("#" ++ toHex (jsRound (r * 255)) ++ toHex (jsRound (g * 255)) ++
        toHex (jsRound (b * 255))) = true
    exact isHexColorString_parts _ _ _ har.1 har.2 hag.1 hag.2 hab.1 hab.2
  · intro h
    rcases h with h | h <;> subst h <;> simp [getAccentColorNonLinux]

/-- Witness for the amended C3 at the components (1/2, 0, 1) and the
empty-string native result. -/
theorem accent_color_failure_and_linux_format_witness :
    getAccentColorLinux DbusAccentQuery.serviceError = "" ∧
    getAccentColorLinux DbusAccentQuery.readError = "" ∧
    isHexColorString (getAccentColorLinux (DbusAccentQuery.ok (1/2) 0 1)) = true ∧
    ((some "" : Option String) = none ∨ (some "" : Option String) = some "" →
      getAccentColorNonLinux (some "") = "#") :=
  accent_color_failure_and_linux_format (1/2) 0 1 (some "") (by norm_num) (by norm_num)
    (by norm_num) (by norm_num) (by norm_num) (by norm_num)
